import Mathlib

/-!
Verification of the review-orchestration server (`github_pr_mcp.py`).

The Python source is shallowly embedded below.  Python dictionaries that
always carry the same keys become structures; Python strings become Lean
`String` (for the diff parser, which needs character-level reasoning,
Python strings are modelled as `List Char`); the side effects of
`subprocess.run`, the filesystem probes (`Path.exists`, `Path.is_file`,
`Path.parent`, `/`-joining) and the two network calls (fetching the PR
diff, posting the review) are modelled by explicit oracles supplied as
function-valued fields of a `Sys` / `Env` record, so that every embedded
operation is a pure, executable function of its input and the oracle.
Each operation additionally returns the ordered trace of Command-Runner
invocations it performed, which the source performs via `_run_command`.
-/

/-- Result dictionary of `_run_command`: captured stdout, stderr, the
process exit status, and the `success` flag set to `returncode == 0` at
construction. -/
structure CommandOutcome where
  stdout : String
  stderr : String
  returncode : Int
  success : Bool
deriving DecidableEq

/-- Behaviour of one underlying `subprocess.run` call: it either completes
with captured output and an exit status, raises `subprocess.TimeoutExpired`
(the 300-second bound elapsed), or raises some other exception (missing
executable, permission error, ...) carrying a message `str(e)`. -/
inductive SubprocessBehavior where
  | completed (stdout stderr : String) (returncode : Int)
  | timeoutExpired
  | raised (message : String)
deriving DecidableEq

/-- `_run_command` (github_pr_mcp.py, lines 164-202): converts every
behaviour of `subprocess.run` into a `CommandOutcome`; the two `except`
arms return the synthetic `-1` outcome instead of propagating. -/
def run_command : SubprocessBehavior → CommandOutcome
  | .completed out err rc => ⟨out, err, rc, rc == 0⟩
  | .timeoutExpired => ⟨"", "Command timed out after 5 minutes", -1, false⟩
  | .raised msg => ⟨"", msg, -1, false⟩

/-!  ## Diff Analyzer (`_parse_diff_for_go_files`, lines 294-302)

Python `str` is modelled as `List Char` here.  `splitOnChar c` is Python's
`str.split(sep)` for a one-character separator: `"".split(c) = [""]`,
empty pieces between adjacent separators are kept. -/

/-- Python `s.split(c)` for a single-character separator `c`. -/
def splitOnChar (c : Char) : List Char → List (List Char)
  | [] => [[]]
  | x :: xs =>
    match splitOnChar c xs with
    | [] => [[]]
    | r :: rs => if x = c then [] :: r :: rs else (x :: r) :: rs

/-- The guard of the loop body: `line.startswith('+++') and line.endswith('.go')`. -/
def matchesGoLine (line : List Char) : Bool :=
  "+++".toList.isPrefixOf line && ".go".toList.isSuffixOf line

/-- The `for line in diff_text.split('\n')` loop of
`_parse_diff_for_go_files`.  `line.split(' ')[1]` raises `IndexError`
when the line contains no space; that exception (which the source does
not catch) is modelled by `.error ()`. -/
def goFilesLoop (acc : List (List Char)) : List (List Char) → Except Unit (List (List Char))
  | [] => .ok acc
  | line :: rest =>
    if matchesGoLine line then
      match (splitOnChar ' ' line)[1]? with
      | some tok => goFilesLoop (acc ++ [tok.drop 2]) rest
      | none => .error ()
    else goFilesLoop acc rest

/-- `_parse_diff_for_go_files(diff_text)`. -/
def parse_diff_for_go_files (diff_text : List Char) : Except Unit (List (List Char)) :=
  goFilesLoop [] (splitOnChar '\n' diff_text)

/-- Joins lines with `'\n'`, the left inverse of `splitOnChar '\n'` on
newline-free lines; used to quantify over diffs line by line. -/
def joinLines : List (List Char) → List Char
  | [] => []
  | [l] => l
  | l :: ls => l ++ '\n' :: joinLines ls

/-!  ## System oracles -/

/-- One Command-Runner invocation: the argv list and the working
directory passed to `_run_command` (`none` when the `cwd` keyword was not
supplied). -/
structure Invocation where
  cmd : List String
  cwd : Option String
deriving DecidableEq

/-- Oracle for the process and filesystem environment: what
`subprocess.run` does for a given argv/cwd, and what `Path.exists()`,
`Path.is_file()`, `str(Path.parent)` and `Path(a) / b` return.
`str(Path(p))` is modelled as `p` itself. -/
structure Sys where
  subprocess : List String → Option String → SubprocessBehavior
  pathExists : String → Bool
  pathIsFile : String → Bool
  pathParent : String → String
  joinPath : String → String → String

/-- `ResponseFormat` enum. -/
inductive ResponseFormat where
  | markdown
  | json
deriving DecidableEq

/-- The `analysis_type` literal of `AnalyzeCodeInput`. -/
inductive AnalysisType where
  | lint
  | fmt
  | vet
  | all
deriving DecidableEq

/-- `AnalyzeCodeInput` (validated parameter object). -/
structure AnalyzeCodeInput where
  file_path : String
  analysis_type : AnalysisType
  response_format : ResponseFormat
deriving DecidableEq

/-- The `results` dictionary built by `analyze_code`: one optional
`CommandOutcome` per check key, in insertion order lint, fmt, vet. -/
structure AnalysisResults where
  lint : Option CommandOutcome
  fmt : Option CommandOutcome
  vet : Option CommandOutcome
deriving DecidableEq

/-- The clean-lint status line. -/
def cleanLintLine : String := "âœ… No linting issues found!\n"

/-- The clean-fmt status line. -/
def cleanFmtLine : String := "âœ… Code is properly formatted!\n"

/-- The clean-vet status line. -/
def cleanVetLine : String := "âœ… No issues found by go vet!\n"

/-- Lint section body (lines 210-214): clean on the success flag alone. -/
def lintSection (r : CommandOutcome) : String :=
  if r.success then cleanLintLine
  else ("âŒ Linting issues detected:\n\n```\n" ++ r.stdout) ++ "\n```\n"

/-- Fmt section body (lines 217-221): clean only when the success flag is
true AND the captured stdout is empty. -/
def fmtSection (r : CommandOutcome) : String :=
  if r.success && r.stdout == "" then cleanFmtLine
  else ("âš ï¸ Formatting issues found:\n\n```\n" ++ r.stdout) ++ "\n```\n"

/-- Vet section body (lines 224-228): clean on the success flag alone
(the failure text quotes stderr). -/
def vetSection (r : CommandOutcome) : String :=
  if r.success then cleanVetLine
  else ("âŒ Issues detected:\n\n```\n" ++ r.stderr) ++ "\n```\n"

/-- The lint portion of the `sections` list. -/
def lintPartList : Option CommandOutcome → List String
  | some r => ["## Linting Results (golangci-lint)\n", lintSection r]
  | none => []

/-- The fmt portion of the `sections` list. -/
def fmtPartList : Option CommandOutcome → List String
  | some r => ["## Formatting Check (gofmt)\n", fmtSection r]
  | none => []

/-- The vet portion of the `sections` list. -/
def vetPartList : Option CommandOutcome → List String
  | some r => ["## Go Vet Analysis\n", vetSection r]
  | none => []

/-- The `sections` list of `_format_markdown_analysis` (lines 205-230):
a header plus a status body for each check key present, in insertion
order lint, fmt, vet. -/
def analysisSections (results : AnalysisResults) : List String :=
  lintPartList results.lint ++ fmtPartList results.fmt ++ vetPartList results.vet

/-- `_format_markdown_analysis`: `"\n".join(sections)`. -/
def format_markdown_analysis (results : AnalysisResults) : String :=
  String.intercalate "\n" (analysisSections results)

/-- Return value of `analyze_code` (a JSON string in the source): either
the early `{"error": ..., "success": false}` payload for a missing path,
or the results rendered in the requested format. -/
inductive AnalyzeCodeReturn where
  | errorPayload (error : String) (success : Bool)
  | jsonResults (results : AnalysisResults)
  | markdownText (text : String)
deriving DecidableEq

/-- The check-running core of `analyze_code` (lines 343-366), reached
only when the path exists: runs each requested check through the Command
Runner and records the invocation trace.  lint and vet pass
`cwd = parent if is_file else path`; fmt passes no `cwd`. -/
def analyze_code_results (sys : Sys) (file_path : String) (analysis_type : AnalysisType) :
    AnalysisResults × List Invocation :=
  let wd : String := if sys.pathIsFile file_path then sys.pathParent file_path else file_path
  let (lintRes, lintTrace) :=
    if analysis_type == .lint || analysis_type == .all then
      let inv : Invocation :=
        ⟨["golangci-lint", "run", "--out-format", "colored-line-number", file_path], some wd⟩
      (some (run_command (sys.subprocess inv.cmd inv.cwd)), [inv])
    else (none, [])
  let (fmtRes, fmtTrace) :=
    if analysis_type == .fmt || analysis_type == .all then
      let inv : Invocation := ⟨["gofmt", "-l", file_path], none⟩
      (some (run_command (sys.subprocess inv.cmd inv.cwd)), [inv])
    else (none, [])
  let (vetRes, vetTrace) :=
    if analysis_type == .vet || analysis_type == .all then
      let inv : Invocation := ⟨["go", "vet", file_path], some wd⟩
      (some (run_command (sys.subprocess inv.cmd inv.cwd)), [inv])
    else (none, [])
  (⟨lintRes, fmtRes, vetRes⟩, lintTrace ++ fmtTrace ++ vetTrace)

/-- `analyze_code` (lines 319-371) with its invocation trace: a missing
path short-circuits to the structured error payload with no invocation. -/
def analyze_code (sys : Sys) (params : AnalyzeCodeInput) : AnalyzeCodeReturn × List Invocation :=
  if !sys.pathExists params.file_path then
    (.errorPayload ("Path not found: " ++ params.file_path) false, [])
  else
    let (results, tr) := analyze_code_results sys params.file_path params.analysis_type
    (if params.response_format == .json then .jsonResults results
     else .markdownText (format_markdown_analysis results), tr)

/-- `RunTestsInput` (validated parameter object). -/
structure RunTestsInput where
  package_path : String
  verbose : Bool
  coverage : Bool
  response_format : ResponseFormat
deriving DecidableEq

/-- The `test_result` dictionary of `run_tests`: the test invocation's
outcome, plus the `"coverage"` key added only on a successful covered
run. -/
structure TestReport where
  outcome : CommandOutcome
  coverage : Option String
deriving DecidableEq

/-- The `go test` argv built by `run_tests` (lines 401-409): verbosity
and coverage flags are appended before the package-path argument. -/
def go_test_cmd (params : RunTestsInput) : List String :=
  (["go", "test"] ++ (if params.verbose then ["-v"] else []) ++
    (if params.coverage then ["-coverprofile=coverage.out", "-covermode=atomic"] else [])) ++
    [params.package_path]

/-- The fixed coverage-summary argv (line 415). -/
def cover_cmd : List String := ["go", "tool", "cover", "-func=coverage.out"]

/-- `run_tests` (lines 384-421) with its invocation trace: runs the test
invocation, then performs the single extra `go tool cover` invocation
only when coverage was requested and the test invocation succeeded,
attaching its stdout under the `"coverage"` key. -/
def run_tests (sys : Sys) (params : RunTestsInput) : TestReport × List Invocation :=
  let cmd := go_test_cmd params
  let test_result := run_command (sys.subprocess cmd none)
  if params.coverage && test_result.success then
    let coverage_result := run_command (sys.subprocess cover_cmd none)
    (⟨test_result, some coverage_result.stdout⟩, [⟨cmd, none⟩, ⟨cover_cmd, none⟩])
  else
    (⟨test_result, none⟩, [⟨cmd, none⟩])

/-!  ## Platform Client, Publisher, and the orchestration pipeline -/

/-- The `{"error": ..., "message": ..., "success": false}` payload that
`get_pr_diff` returns on failure. -/
structure DiffError where
  error : String
  message : String
deriving DecidableEq

/-- The successful `get_pr_diff` result dictionary (JSON format). -/
structure DiffOk where
  pr_number : Nat
  title : String
  state : String
  changed_files : Nat
  additions : Nat
  deletions : Nat
  go_files_changed : List String
  diff : String
deriving DecidableEq

/-- Outcome of the review-posting platform call: the POST succeeded and
returned `{id, state, html_url}`, or raised `httpx.HTTPStatusError`, or
raised some other exception. -/
inductive PostReviewOutcome where
  | posted (review_id : Nat) (state : String) (html_url : String)
  | httpError (status : Nat) (message : String)
  | otherError (name : String) (message : String)
deriving DecidableEq

/-- The JSON payload `post_review_comment` returns (lines 523-574):
`success: true` with the confirmation fields, or `success: false` with an
error heading and message. -/
inductive PostPayload where
  | ok (review_id : Nat) (state : String) (html_url : String) (message : String)
  | err (error : String) (message : String)
deriving DecidableEq

/-- How `post_review_comment` renders each platform outcome. -/
def post_payload : PostReviewOutcome → PostPayload
  | .posted review_id st url => .ok review_id st url "Review posted successfully"
  | .httpError status msg => .err ("GitHub API error: " ++ toString status) msg
  | .otherError name msg => .err ("Unexpected error: " ++ name) msg

/-- `PostReviewCommentInput` (validated parameter object). -/
structure PostReviewCommentInput where
  owner : String
  repo : String
  pr_number : Nat
  body : String
  event : String
  commit_id : Option String
deriving DecidableEq

/-- Full environment of one orchestration run: the process/filesystem
oracle plus the two network interactions — the stage-1 diff fetch
(`get_pr_diff`, whose network part is opaque here) and the stage-5 review
POST. -/
structure Env extends Sys where
  diffFetch : Except DiffError DiffOk
  postOutcome : PostReviewOutcome

/-- `post_review_comment` (lines 523-574): every platform outcome is
converted into a structured payload, never an exception. -/
def post_review_comment (env : Env) (_params : PostReviewCommentInput) : PostPayload :=
  post_payload env.postOutcome

/-- `AnalyzePRInput` (validated parameter object). -/
structure AnalyzePRInput where
  owner : String
  repo : String
  pr_number : Nat
  local_path : Option String
  run_tests : Bool
  post_comments : Bool
  response_format : ResponseFormat
deriving DecidableEq

/-- One entry of `review_results["stages"]["analysis"]`:
`{"file": go_file, "analysis": result}`. -/
structure FileAnalysis where
  file : String
  analysis : AnalysisResults
deriving DecidableEq

/-- One entry of `issues_found`:
`{"file": ..., "type": ..., "details": ...}`. -/
structure Issue where
  file : String
  type : String
  details : String
deriving DecidableEq

deriving instance DecidableEq for Except

/-- The `review_results` dictionary of `analyze_pr`, with one `Option`
field per key that the source adds incrementally; a `none` stage key
means the stage was never attempted. -/
structure RunResult where
  pr_number : Nat
  stages_diff : Option (Except DiffError DiffOk)
  stages_analysis : Option (List FileAnalysis)
  stages_tests : Option CommandOutcome
  stages_posted_review : Option PostPayload
  issues_found : Option Nat
  issues : Option (List Issue)
  review_body : Option String
  recommendation : Option String
deriving DecidableEq

/-- Python truthiness of the optional `local_path` string. -/
def truthyPath : Option String → Bool
  | none => false
  | some s => !(s == "")

/-- Stage 2 loop (lines 636-649): analyzes each changed file that exists
under the local path with `analysis_type="all"`, silently skipping
missing files.  Existence is pre-checked, so `analyze_code` takes its
check-running branch with JSON format; the loop body is embedded through
`analyze_code_results` accordingly. -/
def analyzeFiles (env : Env) (local_path : String) : List String → List FileAnalysis
  | [] => []
  | go_file :: rest =>
    let fp := env.joinPath local_path go_file
    if env.pathExists fp then
      ⟨go_file, (analyze_code_results env.toSys fp .all).1⟩ :: analyzeFiles env local_path rest
    else analyzeFiles env local_path rest

/-- Issues contributed by one file's analysis dictionary (lines 672-679):
scanned in insertion order lint, fmt, vet; an issue is recorded exactly
when the check's success flag is false, with `stdout or stderr` as
details. -/
def checkIssues (file : String) (r : AnalysisResults) : List Issue :=
  (match r.lint with
   | some c => if c.success then [] else [⟨file, "lint", if c.stdout == "" then c.stderr else c.stdout⟩]
   | none => []) ++
  (match r.fmt with
   | some c => if c.success then [] else [⟨file, "fmt", if c.stdout == "" then c.stderr else c.stdout⟩]
   | none => []) ++
  (match r.vet with
   | some c => if c.success then [] else [⟨file, "vet", if c.stdout == "" then c.stderr else c.stdout⟩]
   | none => [])

/-- The outer loop over per-file analysis reports. -/
def analysisIssues : List FileAnalysis → List Issue
  | [] => []
  | fa :: rest => checkIssues fa.file fa.analysis ++ analysisIssues rest

/-- Stage 4 issue derivation (lines 668-688): all analysis-check issues,
then one `test_failure` issue when a tests stage is present with a false
success flag. -/
def aggregatedIssues (analysisStage : Option (List FileAnalysis))
    (testsStage : Option CommandOutcome) : List Issue :=
  (match analysisStage with
   | some l => analysisIssues l
   | none => []) ++
  (match testsStage with
   | some t => if t.success then [] else [⟨"tests", "test_failure", t.stderr⟩]
   | none => [])

/-- The fixed heading of both review bodies. -/
def reviewHeader : String := "## ðŸ¤– Automated Code Review\n\n"

/-- One numbered issue block of the issues body (lines 697-699), with the
details truncated to 500 characters. -/
def issueSection (i : Nat) (issue : Issue) : String :=
  (("### " ++ toString i) ++ (". " ++ issue.type ++ " in `" ++ issue.file ++ "`\n")) ++
    (("```\n" ++ issue.details.take 500) ++ "\n```\n\n")

/-- The review body rendered when issues exist (lines 695-704). -/
def issuesBody (issues : List Issue) : String :=
  (reviewHeader ++ "Found ") ++
    (toString issues.length ++
      (" issue(s) in this PR:\n\n" ++
        (String.join ((issues.enumFrom 1).map (fun p => issueSection p.1 p.2)) ++
          "\n**Recommendations:**\n- Fix linting issues before merging\n- Ensure all tests pass\n- Follow Go formatting standards\n")))

/-- The congratulatory review body rendered when no issue exists
(lines 706-709). -/
def congratsBody : String :=
  reviewHeader ++
    "âœ… All checks passed! Code looks good.\n\n- No linting issues\n- Tests passing\n- Code properly formatted\n"

/-- Stage 2 (lines 635-650): the analysis stage value, present exactly
when the local path is truthy and the diff listed at least one matching
file. -/
def stage2 (env : Env) (params : AnalyzePRInput) (d : DiffOk) : Option (List FileAnalysis) :=
  if truthyPath params.local_path && !d.go_files_changed.isEmpty then
    some (analyzeFiles env (params.local_path.getD "") d.go_files_changed)
  else none

/-- Stage 3 (lines 653-665): the tests stage value, present exactly when
test execution was requested and the local path is truthy; `analyze_pr`
invokes `_run_command` directly with the fixed argv and `cwd` the local
path. -/
def stage3 (env : Env) (params : AnalyzePRInput) : Option CommandOutcome :=
  if params.run_tests && truthyPath params.local_path then
    some (run_command (env.subprocess
      ["go", "test", "-v", "-coverprofile=coverage.out", "-covermode=atomic", "./..."]
      params.local_path))
  else none

/-- Stage 4 issue list (lines 668-688). -/
def pipelineIssues (env : Env) (params : AnalyzePRInput) (d : DiffOk) : List Issue :=
  aggregatedIssues (stage2 env params d) (stage3 env params)

/-- Stage 4 body rendering (lines 694-709). -/
def pipelineBody (issues : List Issue) : String :=
  if !issues.isEmpty then issuesBody issues else congratsBody

/-- Stage 4 verdict derivation (lines 704 and 710). -/
def pipelineVerdict (issues : List Issue) : String :=
  if !issues.isEmpty then "REQUEST_CHANGES" else "APPROVE"

/-- `analyze_pr` (lines 587-734), the five-stage pipeline, as a pure
function of the environment oracle; the final Markdown/JSON rendering of
the returned `review_results` dictionary is the out-of-scope projection.
A diff-stage error returns the partial result carrying only that stage. -/
def analyze_pr (env : Env) (params : AnalyzePRInput) : RunResult :=
  match env.diffFetch with
  | .error e =>
    { pr_number := params.pr_number, stages_diff := some (.error e), stages_analysis := none,
      stages_tests := none, stages_posted_review := none, issues_found := none,
      issues := none, review_body := none, recommendation := none }
  | .ok d =>
    { pr_number := params.pr_number, stages_diff := some (.ok d),
      stages_analysis := stage2 env params d,
      stages_tests := stage3 env params,
      stages_posted_review :=
        if params.post_comments then
          some (post_review_comment env
            ⟨params.owner, params.repo, params.pr_number,
              pipelineBody (pipelineIssues env params d),
              pipelineVerdict (pipelineIssues env params d), none⟩)
        else none,
      issues_found := some (pipelineIssues env params d).length,
      issues := some (pipelineIssues env params d),
      review_body := some (pipelineBody (pipelineIssues env params d)),
      recommendation := some (pipelineVerdict (pipelineIssues env params d)) }

/-!  ## Specification-side definitions

These are the vocabulary of the claims being checked (issue counting over
outcome success flags, outcome-shape agreement, the line-level reading of
the diff extraction); theorems below compare them with the embedded
source functions. -/

/-- The claim's per-line reading of the diff extraction: a header line
that begins with `+++` and ends with the suffix contributes its path
(what follows `"+++ "`) with the two leading prefix characters stripped,
i.e. the line minus its first six characters. -/
def goLineSpec (l : List Char) : Option (List Char) :=
  if matchesGoLine l then some (l.drop 6) else none

/-- The outcomes held by one optional check entry. -/
def optOutcomeList : Option CommandOutcome → List CommandOutcome
  | some c => [c]
  | none => []

/-- All check outcomes of one analysis dictionary, in key order. -/
def resultOutcomes (r : AnalysisResults) : List CommandOutcome :=
  optOutcomeList r.lint ++ optOutcomeList r.fmt ++ optOutcomeList r.vet

/-- All individual check outcomes across an optional analysis stage. -/
def stageOutcomes : Option (List FileAnalysis) → List CommandOutcome
  | some l => (l.map (fun fa => resultOutcomes fa.analysis)).flatten
  | none => []

/-- The test outcomes of an optional tests stage (zero or one). -/
def testStageOutcomes : Option CommandOutcome → List CommandOutcome
  | some t => [t]
  | none => []

/-- Number of individual check outcomes and test outcomes whose success
flag is false. -/
def failedOutcomeCount (a : Option (List FileAnalysis)) (t : Option CommandOutcome) : Nat :=
  (stageOutcomes a ++ testStageOutcomes t).countP (fun o => !o.success)

/-- Two optional outcomes have the same shape: same presence, and equal
success flags when present (stdout/stderr/exit status may differ). -/
def optShapeEqB : Option CommandOutcome → Option CommandOutcome → Bool
  | none, none => true
  | some a, some b => a.success == b.success
  | _, _ => false

/-- Two per-file reports agree on originating file name, check kinds
present, and every outcome's success flag. -/
def fileShapeEqB (f g : FileAnalysis) : Bool :=
  f.file == g.file && optShapeEqB f.analysis.lint g.analysis.lint &&
    optShapeEqB f.analysis.fmt g.analysis.fmt && optShapeEqB f.analysis.vet g.analysis.vet

/-- Pointwise shape agreement of two report lists. -/
def filesShapeEqB : List FileAnalysis → List FileAnalysis → Bool
  | [], [] => true
  | f :: fs, g :: gs => fileShapeEqB f g && filesShapeEqB fs gs
  | _, _ => false

/-- Shape agreement of two optional analysis stages. -/
def analysisShapeEqB : Option (List FileAnalysis) → Option (List FileAnalysis) → Bool
  | none, none => true
  | some l, some l' => filesShapeEqB l l'
  | _, _ => false

/-- Whether the platform call behind the publish stage failed. -/
def postFailed : PostReviewOutcome → Bool
  | .posted _ _ _ => false
  | .httpError _ _ => true
  | .otherError _ _ => true

/-- Whether a publish-stage payload carries an error (`success: false`). -/
def payloadIsError : PostPayload → Bool
  | .ok _ _ _ _ => false
  | .err _ _ => true

/-!  ## Concrete inputs used by the witnesses -/

/-- A system oracle where every path exists, `/repo/main.go` is a file
with parent `/repo`, and every process completes cleanly. -/
def sysW : Sys :=
  { subprocess := fun _ _ => .completed "" "" 0
    pathExists := fun _ => true
    pathIsFile := fun p => p == "/repo/main.go"
    pathParent := fun _ => "/repo"
    joinPath := fun a b => (a ++ "/") ++ b }

/-- A system oracle where no path exists. -/
def sysMissingW : Sys :=
  { subprocess := fun _ _ => .completed "" "" 0
    pathExists := fun _ => false
    pathIsFile := fun _ => false
    pathParent := fun _ => ""
    joinPath := fun a b => (a ++ "/") ++ b }

/-- A system oracle whose gofmt invocation reports `main.go\n` on stdout
with a zero exit status (formatting needed), everything else clean. -/
def sysFmtDirtyW : Sys :=
  { subprocess := fun cmd _ =>
      if cmd.head? == some "gofmt" then .completed "main.go\n" "" 0 else .completed "" "" 0
    pathExists := fun _ => true
    pathIsFile := fun _ => true
    pathParent := fun _ => "/repo"
    joinPath := fun a b => (a ++ "/") ++ b }

/-- A successful stage-1 diff result listing one changed Go file. -/
def diffOkW : DiffOk :=
  ⟨7, "Add feature", "open", 1, 2, 0, ["main.go"], "+++ b/main.go"⟩

/-- Environment: diff fetch succeeds, the publish POST is rejected with
a 422. -/
def envPostFailW : Env :=
  { toSys := sysW, diffFetch := .ok diffOkW, postOutcome := .httpError 422 "Validation Failed" }

/-- Environment with a dirty gofmt outcome and a publishable platform. -/
def envFmtDirtyW : Env :=
  { toSys := sysFmtDirtyW, diffFetch := .ok diffOkW, postOutcome := .posted 1 "APPROVED" "u" }

/-- Environment with every check clean. -/
def envCleanW : Env :=
  { toSys := sysW, diffFetch := .ok diffOkW, postOutcome := .posted 1 "APPROVED" "u" }

/-- Pipeline parameters without a local working copy. -/
def prNoLocalW : AnalyzePRInput := ⟨"o", "r", 7, none, true, false, .json⟩

/-- Pipeline parameters with a local working copy and publication
requested. -/
def prPostW : AnalyzePRInput := ⟨"o", "r", 7, some "/repo", true, true, .json⟩

/-- Pipeline parameters with a local working copy, no publication. -/
def prLocalW : AnalyzePRInput := ⟨"o", "r", 7, some "/repo", true, false, .json⟩

/-- Parameters for a covered test run. -/
def rtParamsW : RunTestsInput := ⟨"./...", false, true, .json⟩

/-!  ## Theorems -/

/-- C3: every Command-Runner invocation yields a `CommandOutcome` whose
success flag equals (exit status == 0); a timeout yields exit status -1,
success false, and a stderr message stating the timeout occurred (it
contains "timed out"); any launch failure yields the same shape with the
exception text as stderr.  The runner is a total function of the
subprocess behaviour — it never raises. -/
theorem run_command_total_contract :
    (∀ out err rc, run_command (.completed out err rc) = ⟨out, err, rc, rc == 0⟩) ∧
    run_command .timeoutExpired = ⟨"", "Command timed out after 5 minutes", -1, false⟩ ∧
    (∃ pre post, (run_command .timeoutExpired).stderr = (pre ++ "timed out") ++ post) ∧
    (∀ msg, run_command (.raised msg) = ⟨"", msg, -1, false⟩) ∧
    (∀ b, (run_command b).success = ((run_command b).returncode == 0)) := by
  refine ⟨fun _ _ _ => rfl, rfl, ⟨"Command ", " after 5 minutes", by decide⟩, fun _ => rfl, ?_⟩
  intro b
  cases b <;> simp [run_command]

/-- C7: with coverage requested, a successful test invocation is followed
by exactly one additional invocation (the fixed coverage-summary argv)
whose stdout is attached to the report; a failed test invocation is the
sole invocation and the report carries no coverage field. -/
theorem run_tests_coverage_invocation (sys : Sys) (params : RunTestsInput)
    (hcov : params.coverage = true) :
    ((run_tests sys params).1.outcome.success = true →
       (run_tests sys params).2 = [⟨go_test_cmd params, none⟩, ⟨cover_cmd, none⟩] ∧
       (run_tests sys params).1.coverage =
         some (run_command (sys.subprocess cover_cmd none)).stdout) ∧
    ((run_tests sys params).1.outcome.success = false →
       (run_tests sys params).2 = [⟨go_test_cmd params, none⟩] ∧
       (run_tests sys params).1.coverage = none) := by
  rcases h : (run_command (sys.subprocess (go_test_cmd params) none)).success with _ | _ <;>
    simp [run_tests, hcov, h]

/-- Witness for C7 at a concrete system where the test run succeeds. -/
theorem run_tests_coverage_invocation_witness :
    ((run_tests sysW rtParamsW).1.outcome.success = true →
       (run_tests sysW rtParamsW).2 = [⟨go_test_cmd rtParamsW, none⟩, ⟨cover_cmd, none⟩] ∧
       (run_tests sysW rtParamsW).1.coverage =
         some (run_command (sysW.subprocess cover_cmd none)).stdout) ∧
    ((run_tests sysW rtParamsW).1.outcome.success = false →
       (run_tests sysW rtParamsW).2 = [⟨go_test_cmd rtParamsW, none⟩] ∧
       (run_tests sysW rtParamsW).1.coverage = none) :=
  run_tests_coverage_invocation sysW rtParamsW rfl

/-- `splitOnChar` never returns the empty list. -/
theorem splitOnChar_ne_nil (c : Char) (s : List Char) : splitOnChar c s ≠ [] := by
  cases s with
  | nil => simp [splitOnChar]
  | cons x xs =>
    rcases h : splitOnChar c xs with _ | ⟨r, rs⟩
    · simp [splitOnChar, h]
    · simp only [splitOnChar, h]
      split <;> simp

/-- Splitting a string that does not contain the separator. -/
theorem splitOnChar_not_mem {c : Char} {s : List Char} (h : c ∉ s) : splitOnChar c s = [s] := by
  induction s with
  | nil => rfl
  | cons x xs ih =>
    have hx : ¬ x = c := by rintro rfl; exact h (List.mem_cons_self _ _)
    have hxs : c ∉ xs := fun m => h (List.mem_cons_of_mem _ m)
    simp [splitOnChar, ih hxs, hx]

/-- Splitting at the first separator occurrence. -/
theorem splitOnChar_append_cons (c : Char) {s : List Char} (t : List Char) (h : c ∉ s) :
    splitOnChar c (s ++ c :: t) = s :: splitOnChar c t := by
  induction s with
  | nil =>
    rcases hrt : splitOnChar c t with _ | ⟨r, rs⟩
    · exact absurd hrt (splitOnChar_ne_nil c t)
    · simp [splitOnChar, hrt]
  | cons x xs ih =>
    have hx : ¬ x = c := by rintro rfl; exact h (List.mem_cons_self _ _)
    have hxs : c ∉ xs := fun m => h (List.mem_cons_of_mem _ m)
    simp [splitOnChar, ih hxs, hx]

/-- `splitOnChar` is a left inverse of `joinLines` on newline-free
lines. -/
theorem splitOnChar_joinLines {lines : List (List Char)} (hne : lines ≠ [])
    (h : ∀ l ∈ lines, '\n' ∉ l) :
    splitOnChar '\n' (joinLines lines) = lines := by
  induction lines with
  | nil => exact absurd rfl hne
  | cons l ls ih =>
    cases ls with
    | nil => simpa [joinLines] using splitOnChar_not_mem (h l (List.mem_cons_self _ _))
    | cons m ms =>
      have hj : joinLines (l :: m :: ms) = l ++ '\n' :: joinLines (m :: ms) := rfl
      rw [hj, splitOnChar_append_cons _ _ (h l (List.mem_cons_self _ _)),
        ih (by simp) (fun x hx => h x (List.mem_cons_of_mem _ hx))]

/-- The extraction loop, on diffs whose matching header lines carry a
space-free path after the `"+++ "` marker, appends exactly the stripped
paths in line order. -/
theorem goFilesLoop_spec (lines : List (List Char)) :
    ∀ acc, (∀ l ∈ lines, matchesGoLine l = true → l.take 4 = ['+', '+', '+', ' '] ∧ ' ' ∉ l.drop 4) →
      goFilesLoop acc lines = .ok (acc ++ lines.filterMap goLineSpec) := by
  induction lines with
  | nil => intro acc _; simp [goFilesLoop]
  | cons line rest ih =>
    intro acc h
    rcases hm : matchesGoLine line with _ | _
    · simp only [goFilesLoop, hm, Bool.false_eq_true, if_neg, ite_false]
      rw [ih acc (fun l hl => h l (List.mem_cons_of_mem _ hl))]
      simp [goLineSpec, hm]
    · obtain ⟨h4, hsp⟩ := h line (List.mem_cons_self _ _) hm
      have hline : ['+', '+', '+'] ++ ' ' :: line.drop 4 = line := by
        have htd := List.take_append_drop 4 line
        rw [h4] at htd
        simpa using htd
      have hsplit : splitOnChar ' ' line = [['+', '+', '+'], line.drop 4] := by
        conv_lhs => rw [← hline]
        rw [splitOnChar_append_cons _ _ (by decide), splitOnChar_not_mem hsp]
      simp only [goFilesLoop, hm, ite_true, hsplit]
      change goFilesLoop (acc ++ [List.drop 2 (List.drop 4 line)]) rest = _
      rw [ih _ (fun l hl => h l (List.mem_cons_of_mem _ hl))]
      simp [goLineSpec, hm, List.drop_drop, List.append_assoc]

/-- C2 (amended): on diffs whose `+++`-and-suffix header lines each
consist of the four-character `"+++ "` marker followed by a space-free
path, `_parse_diff_for_go_files` returns exactly those paths with the two
leading prefix characters stripped, in line order, duplicates preserved.
(The unamended claim fails when the path itself contains a space: the
source takes the second space-delimited token, so the path is truncated
at its first space — see the counterexample.) -/
theorem parse_diff_header_lines (lines : List (List Char))
    (hnl : ∀ l ∈ lines, '\n' ∉ l)
    (hshape : ∀ l ∈ lines, matchesGoLine l = true →
      l.take 4 = ['+', '+', '+', ' '] ∧ ' ' ∉ l.drop 4) :
    parse_diff_for_go_files (joinLines lines) = .ok (lines.filterMap goLineSpec) := by
  cases lines with
  | nil => rfl
  | cons l ls =>
    unfold parse_diff_for_go_files
    rw [splitOnChar_joinLines (by simp) hnl]
    simpa using goFilesLoop_spec _ _ hshape

/-- Witness for the amended C2: a four-line diff with one non-header
line, two matching Go header lines and one non-Go header line extracts
the two stripped Go paths in order. -/
theorem parse_diff_header_lines_witness :
    parse_diff_for_go_files (joinLines
      ["diff --git a/main.go b/main.go".toList, "+++ b/main.go".toList,
       "+++ b/README.md".toList, "+++ b/pkg/utils.go".toList]) =
      .ok ["main.go".toList, "pkg/utils.go".toList] :=
  (parse_diff_header_lines
    ["diff --git a/main.go b/main.go".toList, "+++ b/main.go".toList,
     "+++ b/README.md".toList, "+++ b/pkg/utils.go".toList]
    (by decide) (by decide)).trans (by decide)

/-- Counterexample to C2 as stated: on the header line
`+++ b/a b.go`, whose path `a b.go` contains a space, the source returns
`a` (the second space-delimited token minus two characters), not the
claimed full stripped path `a b.go`. -/
theorem parse_diff_space_in_path :
    parse_diff_for_go_files ("+++ b/a b.go".toList) = .ok ["a".toList] ∧
    parse_diff_for_go_files ("+++ b/a b.go".toList) ≠ .ok ["a b.go".toList] := by
  constructor
  · decide
  · decide

/-- Strings that differ at some character position are different. -/
theorem string_ne_of_data_getElem? {a b : String} (n : Nat) (h : a.data[n]? ≠ b.data[n]?) :
    a ≠ b := fun e => h (by rw [e])

/-- A character position inside the concrete head of `c ++ s`. -/
theorem data_getElem?_append1 (c s : String) (n : Nat) (h : n < c.data.length) :
    (c ++ s).data[n]? = c.data[n]? := by
  rw [String.data_append, List.getElem?_append_left h]

/-- A character position inside the concrete head of `(c ++ s) ++ t`. -/
theorem data_getElem?_append2 (c s t : String) (n : Nat) (h : n < c.data.length) :
    ((c ++ s) ++ t).data[n]? = c.data[n]? := by
  have h1 : n < ((c ++ s).data).length := by
    rw [String.data_append, List.length_append]; omega
  rw [String.data_append, List.getElem?_append_left h1, data_getElem?_append1 c s n h]

/-- A string differing from `c` at a position inside `c` differs from
`(c ++ s) ++ t` for every `s`, `t`. -/
theorem ne_append2_of_getElem? {a c : String} (s t : String) (n : Nat)
    (hn : n < c.data.length) (h : a.data[n]? ≠ c.data[n]?) : a ≠ (c ++ s) ++ t :=
  string_ne_of_data_getElem? n (by rw [data_getElem?_append2 c s t n hn]; exact h)

/-- A string differing from `c` at a position inside `c` differs from
`c ++ s` for every `s`. -/
theorem ne_append1_of_getElem? {a c : String} (s : String) (n : Nat)
    (hn : n < c.data.length) (h : a.data[n]? ≠ c.data[n]?) : a ≠ c ++ s :=
  string_ne_of_data_getElem? n (by rw [data_getElem?_append1 c s n hn]; exact h)

/-- The clean-fmt line never appears in the lint section. -/
theorem cleanFmt_notin_lintPart (o : Option CommandOutcome) : cleanFmtLine ∉ lintPartList o := by
  cases o with
  | none => simp [lintPartList]
  | some r =>
    intro hmem
    rcases List.mem_cons.1 hmem with h | hmem2
    · exact absurd h (by decide)
    · have h := List.mem_singleton.1 hmem2
      by_cases hs : r.success = true
      · rw [lintSection, if_pos hs] at h; exact absurd h (by decide)
      · rw [lintSection, if_neg hs] at h
        exact absurd h (ne_append2_of_getElem? _ _ 1 (by decide) (by decide))

/-- The clean-fmt line never appears in the vet section. -/
theorem cleanFmt_notin_vetPart (o : Option CommandOutcome) : cleanFmtLine ∉ vetPartList o := by
  cases o with
  | none => simp [vetPartList]
  | some r =>
    intro hmem
    rcases List.mem_cons.1 hmem with h | hmem2
    · exact absurd h (by decide)
    · have h := List.mem_singleton.1 hmem2
      by_cases hs : r.success = true
      · rw [vetSection, if_pos hs] at h; exact absurd h (by decide)
      · rw [vetSection, if_neg hs] at h
        exact absurd h (ne_append2_of_getElem? _ _ 1 (by decide) (by decide))

/-- The clean-fmt line appears in the fmt section exactly when the
outcome succeeded with empty stdout. -/
theorem cleanFmt_mem_fmtPart (r : CommandOutcome) :
    cleanFmtLine ∈ fmtPartList (some r) ↔ (r.success = true ∧ r.stdout = "") := by
  constructor
  · intro hmem
    rcases List.mem_cons.1 hmem with h | hmem2
    · exact absurd h (by decide)
    · have h := List.mem_singleton.1 hmem2
      by_cases hc : (r.success && r.stdout == "") = true
      · simpa using hc
      · rw [fmtSection, if_neg hc] at h
        exact absurd h (ne_append2_of_getElem? _ _ 1 (by decide) (by decide))
  · rintro ⟨hs, ho⟩
    refine List.mem_cons_of_mem _ (List.mem_singleton.2 ?_)
    rw [fmtSection, if_pos (show (r.success && r.stdout == "") = true by simp [hs, ho])]

/-- The clean-lint line never appears in the fmt section. -/
theorem cleanLint_notin_fmtPart (o : Option CommandOutcome) : cleanLintLine ∉ fmtPartList o := by
  cases o with
  | none => simp [fmtPartList]
  | some r =>
    intro hmem
    rcases List.mem_cons.1 hmem with h | hmem2
    · exact absurd h (by decide)
    · have h := List.mem_singleton.1 hmem2
      by_cases hc : (r.success && r.stdout == "") = true
      · rw [fmtSection, if_pos hc] at h; exact absurd h (by decide)
      · rw [fmtSection, if_neg hc] at h
        exact absurd h (ne_append2_of_getElem? _ _ 1 (by decide) (by decide))

/-- The clean-lint line never appears in the vet section. -/
theorem cleanLint_notin_vetPart (o : Option CommandOutcome) : cleanLintLine ∉ vetPartList o := by
  cases o with
  | none => simp [vetPartList]
  | some r =>
    intro hmem
    rcases List.mem_cons.1 hmem with h | hmem2
    · exact absurd h (by decide)
    · have h := List.mem_singleton.1 hmem2
      by_cases hs : r.success = true
      · rw [vetSection, if_pos hs] at h; exact absurd h (by decide)
      · rw [vetSection, if_neg hs] at h
        exact absurd h (ne_append2_of_getElem? _ _ 1 (by decide) (by decide))

/-- The clean-lint line appears in the lint section exactly when the
outcome succeeded. -/
theorem cleanLint_mem_lintPart (r : CommandOutcome) :
    cleanLintLine ∈ lintPartList (some r) ↔ r.success = true := by
  constructor
  · intro hmem
    rcases List.mem_cons.1 hmem with h | hmem2
    · exact absurd h (by decide)
    · have h := List.mem_singleton.1 hmem2
      by_cases hs : r.success = true
      · exact hs
      · rw [lintSection, if_neg hs] at h
        exact absurd h (ne_append2_of_getElem? _ _ 1 (by decide) (by decide))
  · intro hs
    refine List.mem_cons_of_mem _ (List.mem_singleton.2 ?_)
    rw [lintSection, if_pos hs]

/-- The clean-vet line never appears in the lint section. -/
theorem cleanVet_notin_lintPart (o : Option CommandOutcome) : cleanVetLine ∉ lintPartList o := by
  cases o with
  | none => simp [lintPartList]
  | some r =>
    intro hmem
    rcases List.mem_cons.1 hmem with h | hmem2
    · exact absurd h (by decide)
    · have h := List.mem_singleton.1 hmem2
      by_cases hs : r.success = true
      · rw [lintSection, if_pos hs] at h; exact absurd h (by decide)
      · rw [lintSection, if_neg hs] at h
        exact absurd h (ne_append2_of_getElem? _ _ 1 (by decide) (by decide))

/-- The clean-vet line never appears in the fmt section. -/
theorem cleanVet_notin_fmtPart (o : Option CommandOutcome) : cleanVetLine ∉ fmtPartList o := by
  cases o with
  | none => simp [fmtPartList]
  | some r =>
    intro hmem
    rcases List.mem_cons.1 hmem with h | hmem2
    · exact absurd h (by decide)
    · have h := List.mem_singleton.1 hmem2
      by_cases hc : (r.success && r.stdout == "") = true
      · rw [fmtSection, if_pos hc] at h; exact absurd h (by decide)
      · rw [fmtSection, if_neg hc] at h
        exact absurd h (ne_append2_of_getElem? _ _ 1 (by decide) (by decide))

/-- The clean-vet line appears in the vet section exactly when the
outcome succeeded. -/
theorem cleanVet_mem_vetPart (r : CommandOutcome) :
    cleanVetLine ∈ vetPartList (some r) ↔ r.success = true := by
  constructor
  · intro hmem
    rcases List.mem_cons.1 hmem with h | hmem2
    · exact absurd h (by decide)
    · have h := List.mem_singleton.1 hmem2
      by_cases hs : r.success = true
      · exact hs
      · rw [vetSection, if_neg hs] at h
        exact absurd h (ne_append2_of_getElem? _ _ 1 (by decide) (by decide))
  · intro hs
    refine List.mem_cons_of_mem _ (List.mem_singleton.2 ?_)
    rw [vetSection, if_pos hs]

/-- C5: in the rendered analysis markdown, the formatting check is
reported clean (its clean status line appears among the sections) exactly
when its success flag is true AND its captured stdout is empty, while the
lint and vet checks are reported clean exactly on their success flag. -/
theorem markdown_clean_reporting (res : AnalysisResults) :
    (∀ r, res.fmt = some r →
      (cleanFmtLine ∈ analysisSections res ↔ (r.success = true ∧ r.stdout = ""))) ∧
    (∀ r, res.lint = some r →
      (cleanLintLine ∈ analysisSections res ↔ r.success = true)) ∧
    (∀ r, res.vet = some r →
      (cleanVetLine ∈ analysisSections res ↔ r.success = true)) := by
  refine ⟨fun r hr => ?_, fun r hr => ?_, fun r hr => ?_⟩
  · rw [analysisSections, hr]
    constructor
    · intro hmem
      rcases List.mem_append.1 hmem with hmem2 | h
      · rcases List.mem_append.1 hmem2 with h | h
        · exact absurd h (cleanFmt_notin_lintPart _)
        · exact (cleanFmt_mem_fmtPart r).1 h
      · exact absurd h (cleanFmt_notin_vetPart _)
    · intro hc
      exact List.mem_append.2 (Or.inl (List.mem_append.2 (Or.inr ((cleanFmt_mem_fmtPart r).2 hc))))
  · rw [analysisSections, hr]
    constructor
    · intro hmem
      rcases List.mem_append.1 hmem with hmem2 | h
      · rcases List.mem_append.1 hmem2 with h | h
        · exact (cleanLint_mem_lintPart r).1 h
        · exact absurd h (cleanLint_notin_fmtPart _)
      · exact absurd h (cleanLint_notin_vetPart _)
    · intro hc
      exact List.mem_append.2 (Or.inl (List.mem_append.2 (Or.inl ((cleanLint_mem_lintPart r).2 hc))))
  · rw [analysisSections, hr]
    constructor
    · intro hmem
      rcases List.mem_append.1 hmem with hmem2 | h
      · rcases List.mem_append.1 hmem2 with h | h
        · exact absurd h (cleanVet_notin_lintPart _)
        · exact absurd h (cleanVet_notin_fmtPart _)
      · exact (cleanVet_mem_vetPart r).1 h
    · intro hc
      exact List.mem_append.2 (Or.inr ((cleanVet_mem_vetPart r).2 hc))

/-- Witness for C5 at a concrete report: lint succeeded (reported clean)
while fmt succeeded with non-empty stdout (not reported clean). -/
theorem markdown_clean_reporting_witness :
    (cleanFmtLine ∈
        analysisSections ⟨some ⟨"", "", 0, true⟩, some ⟨"main.go\n", "", 0, true⟩, none⟩ ↔
      (true = true ∧ "main.go\n" = "")) ∧
    (cleanLintLine ∈
        analysisSections ⟨some ⟨"", "", 0, true⟩, some ⟨"main.go\n", "", 0, true⟩, none⟩ ↔
      true = true) :=
  ⟨(markdown_clean_reporting _).1 _ rfl, (markdown_clean_reporting _).2.1 _ rfl⟩

/-- C6 (amended): for an existing path, the lint and vet checks are
invoked with working directory equal to the path's parent when the path
is a file (the path itself when it is a directory), but the fmt check is
invoked with NO working directory (`cwd` is not passed); the trace
contains exactly the requested checks in order lint, fmt, vet. -/
theorem analyze_code_invocation_cwd (sys : Sys) (params : AnalyzeCodeInput)
    (hex : sys.pathExists params.file_path = true) :
    (analyze_code sys params).2 =
      (if params.analysis_type == .lint || params.analysis_type == .all then
        [⟨["golangci-lint", "run", "--out-format", "colored-line-number", params.file_path],
          some (if sys.pathIsFile params.file_path then sys.pathParent params.file_path
                else params.file_path)⟩]
       else []) ++
      (if params.analysis_type == .fmt || params.analysis_type == .all then
        [⟨["gofmt", "-l", params.file_path], none⟩]
       else []) ++
      (if params.analysis_type == .vet || params.analysis_type == .all then
        [⟨["go", "vet", params.file_path],
          some (if sys.pathIsFile params.file_path then sys.pathParent params.file_path
                else params.file_path)⟩]
       else []) := by
  obtain ⟨fp, ty, rf⟩ := params
  cases ty <;> simp_all [analyze_code, analyze_code_results]

/-- Witness for the amended C6 at a concrete file path with all checks
requested. -/
theorem analyze_code_invocation_cwd_witness :
    (analyze_code sysW ⟨"/repo/main.go", .all, .json⟩).2 =
      (if AnalysisType.all == .lint || AnalysisType.all == .all then
        [⟨["golangci-lint", "run", "--out-format", "colored-line-number", "/repo/main.go"],
          some (if sysW.pathIsFile "/repo/main.go" then sysW.pathParent "/repo/main.go"
                else "/repo/main.go")⟩]
       else []) ++
      (if AnalysisType.all == .fmt || AnalysisType.all == .all then
        [⟨["gofmt", "-l", "/repo/main.go"], none⟩]
       else []) ++
      (if AnalysisType.all == .vet || AnalysisType.all == .all then
        [⟨["go", "vet", "/repo/main.go"],
          some (if sysW.pathIsFile "/repo/main.go" then sysW.pathParent "/repo/main.go"
                else "/repo/main.go")⟩]
       else []) :=
  analyze_code_invocation_cwd sysW ⟨"/repo/main.go", .all, .json⟩ rfl

/-- Counterexample to C6 as stated: at an existing file path, the three
requested checks are invoked with working directories
`[parent, none, parent]` — the fmt invocation does NOT receive the
path's parent as its working directory. -/
theorem analyze_code_fmt_no_cwd :
    ((analyze_code sysW ⟨"/repo/main.go", .all, .json⟩).2.map Invocation.cwd) =
      [some "/repo", none, some "/repo"] ∧
    ¬ (∀ inv ∈ (analyze_code sysW ⟨"/repo/main.go", .all, .json⟩).2,
        inv.cwd = some "/repo") := by
  constructor
  · decide
  · decide

/-- C9: a missing path makes `analyze_code` return the structured
"path not found" error payload with `success = false` immediately, with
no Command-Runner invocation; and inside the broader pipeline a changed
file that is absent locally is simply skipped — stage 2 continues with
the remaining files instead of aborting. -/
theorem analyze_code_missing_path (sys : Sys) (params : AnalyzeCodeInput)
    (h : sys.pathExists params.file_path = false) :
    analyze_code sys params =
      (.errorPayload ("Path not found: " ++ params.file_path) false, []) ∧
    (∀ env : Env, ∀ lp f fs, env.pathExists (env.joinPath lp f) = false →
      analyzeFiles env lp (f :: fs) = analyzeFiles env lp fs) := by
  constructor
  · simp [analyze_code, h]
  · intro env lp f fs hf
    simp [analyzeFiles, hf]

/-- Witness for C9 at a concrete missing path. -/
theorem analyze_code_missing_path_witness :
    analyze_code sysMissingW ⟨"/nope.go", .all, .json⟩ =
      (.errorPayload ("Path not found: " ++ "/nope.go") false, []) ∧
    (∀ env : Env, ∀ lp f fs, env.pathExists (env.joinPath lp f) = false →
      analyzeFiles env lp (f :: fs) = analyzeFiles env lp fs) :=
  analyze_code_missing_path sysMissingW ⟨"/nope.go", .all, .json⟩ rfl

/-- Length of one check's issue contribution, as a count of its failed
outcomes. -/
theorem issue_entry_length (file type : String) (c : CommandOutcome) :
    (if c.success then ([] : List Issue)
     else [⟨file, type, if c.stdout == "" then c.stderr else c.stdout⟩]).length =
      (if !c.success then 1 else 0) := by
  cases h : c.success <;> simp [h]

/-- One file's issue contribution counts exactly its failed check
outcomes. -/
theorem checkIssues_length (file : String) (r : AnalysisResults) :
    (checkIssues file r).length = (resultOutcomes r).countP (fun o => !o.success) := by
  rcases r with ⟨l, f, v⟩
  rcases l with _ | lc <;> rcases f with _ | fc <;> rcases v with _ | vc <;>
    simp [checkIssues, resultOutcomes, optOutcomeList, List.countP_cons, List.countP_append] <;>
    (repeat' split) <;> simp_all

/-- The analysis-stage issue list counts exactly the failed check
outcomes across all per-file reports. -/
theorem analysisIssues_length (l : List FileAnalysis) :
    (analysisIssues l).length = (stageOutcomes (some l)).countP (fun o => !o.success) := by
  induction l with
  | nil => rfl
  | cons fa rest ih =>
    have h1 : analysisIssues (fa :: rest) =
        checkIssues fa.file fa.analysis ++ analysisIssues rest := rfl
    have h2 : stageOutcomes (some (fa :: rest)) =
        resultOutcomes fa.analysis ++ stageOutcomes (some rest) := by
      simp [stageOutcomes]
    rw [h1, h2, List.length_append, List.countP_append, checkIssues_length, ih]

/-- The aggregated issue list counts exactly the failed check and test
outcomes. -/
theorem aggregatedIssues_length (a : Option (List FileAnalysis)) (t : Option CommandOutcome) :
    (aggregatedIssues a t).length = failedOutcomeCount a t := by
  rcases a with _ | l <;> rcases t with _ | tc
  · rfl
  · cases h : tc.success <;>
      simp [aggregatedIssues, failedOutcomeCount, stageOutcomes, testStageOutcomes, h,
        List.countP_cons]
  · simp [aggregatedIssues, failedOutcomeCount, testStageOutcomes, List.countP_append,
      analysisIssues_length]
  · have h1 : aggregatedIssues (some l) (some tc) =
        analysisIssues l ++ (if tc.success then [] else [⟨"tests", "test_failure", tc.stderr⟩]) :=
      rfl
    have h2 : failedOutcomeCount (some l) (some tc) =
        (stageOutcomes (some l)).countP (fun o => !o.success) +
          (testStageOutcomes (some tc)).countP (fun o => !o.success) := by
      rw [failedOutcomeCount, List.countP_append]
    rw [h1, List.length_append, analysisIssues_length, h2]
    cases h : tc.success <;> simp [testStageOutcomes, List.countP_cons, h]

/-- Reduction of `analyze_pr` under a successful diff stage. -/
theorem analyze_pr_ok_eq (env : Env) (params : AnalyzePRInput) (d : DiffOk)
    (hdiff : env.diffFetch = .ok d) :
    analyze_pr env params =
      { pr_number := params.pr_number, stages_diff := some (.ok d),
        stages_analysis := stage2 env params d,
        stages_tests := stage3 env params,
        stages_posted_review :=
          if params.post_comments then
            some (post_review_comment env
              ⟨params.owner, params.repo, params.pr_number,
                pipelineBody (pipelineIssues env params d),
                pipelineVerdict (pipelineIssues env params d), none⟩)
          else none,
        issues_found := some (pipelineIssues env params d).length,
        issues := some (pipelineIssues env params d),
        review_body := some (pipelineBody (pipelineIssues env params d)),
        recommendation := some (pipelineVerdict (pipelineIssues env params d)) } := by
  rw [analyze_pr, hdiff]

/-- The derived verdict as a function of the issue count: it is
REQUEST_CHANGES exactly when the count is positive, APPROVE exactly when
it is zero, and never COMMENT. -/
theorem pipelineVerdict_spec (issues : List Issue) :
    (pipelineVerdict issues = "REQUEST_CHANGES" ↔ 0 < issues.length) ∧
    (pipelineVerdict issues = "APPROVE" ↔ issues.length = 0) ∧
    pipelineVerdict issues ≠ "COMMENT" := by
  cases issues <;> simp [pipelineVerdict]

/-- C1: whenever the pipeline reaches aggregation (the diff stage
succeeded), the reported issue count equals the number of individual
check outcomes and test outcomes whose success flag is false, the verdict
is REQUEST_CHANGES exactly when that count is positive and APPROVE
exactly when it is zero, and the verdict is never COMMENT. -/
theorem aggregation_count_verdict (env : Env) (params : AnalyzePRInput) (d : DiffOk)
    (hdiff : env.diffFetch = .ok d) :
    (analyze_pr env params).issues_found =
      some (failedOutcomeCount (analyze_pr env params).stages_analysis
        (analyze_pr env params).stages_tests) ∧
    ((analyze_pr env params).recommendation = some "REQUEST_CHANGES" ↔
      0 < failedOutcomeCount (analyze_pr env params).stages_analysis
        (analyze_pr env params).stages_tests) ∧
    ((analyze_pr env params).recommendation = some "APPROVE" ↔
      failedOutcomeCount (analyze_pr env params).stages_analysis
        (analyze_pr env params).stages_tests = 0) ∧
    (analyze_pr env params).recommendation ≠ some "COMMENT" := by
  rw [analyze_pr_ok_eq env params d hdiff]
  have hlen : (pipelineIssues env params d).length =
      failedOutcomeCount (stage2 env params d) (stage3 env params) := by
    rw [pipelineIssues, aggregatedIssues_length]
  refine ⟨?_, ?_, ?_, ?_⟩
  · simpa using hlen
  · simpa [← hlen] using (pipelineVerdict_spec (pipelineIssues env params d)).1
  · simpa [← hlen] using (pipelineVerdict_spec (pipelineIssues env params d)).2.1
  · simpa using (pipelineVerdict_spec (pipelineIssues env params d)).2.2

/-- Witness for C1 at a concrete run (clean environment, no local
path). -/
theorem aggregation_count_verdict_witness :
    (analyze_pr envCleanW prNoLocalW).issues_found =
      some (failedOutcomeCount (analyze_pr envCleanW prNoLocalW).stages_analysis
        (analyze_pr envCleanW prNoLocalW).stages_tests) ∧
    ((analyze_pr envCleanW prNoLocalW).recommendation = some "REQUEST_CHANGES" ↔
      0 < failedOutcomeCount (analyze_pr envCleanW prNoLocalW).stages_analysis
        (analyze_pr envCleanW prNoLocalW).stages_tests) ∧
    ((analyze_pr envCleanW prNoLocalW).recommendation = some "APPROVE" ↔
      failedOutcomeCount (analyze_pr envCleanW prNoLocalW).stages_analysis
        (analyze_pr envCleanW prNoLocalW).stages_tests = 0) ∧
    (analyze_pr envCleanW prNoLocalW).recommendation ≠ some "COMMENT" :=
  aggregation_count_verdict envCleanW prNoLocalW diffOkW rfl

/-- C4: when no local working-copy path is supplied and the diff stage
succeeds, the analysis and test stages are both absent from the result's
stages, the issue count is zero, and the verdict is APPROVE. -/
theorem no_local_path_defaults (env : Env) (params : AnalyzePRInput) (d : DiffOk)
    (hdiff : env.diffFetch = .ok d) (hlp : params.local_path = none) :
    (analyze_pr env params).stages_analysis = none ∧
    (analyze_pr env params).stages_tests = none ∧
    (analyze_pr env params).issues_found = some 0 ∧
    (analyze_pr env params).recommendation = some "APPROVE" := by
  rw [analyze_pr_ok_eq env params d hdiff]
  have h2 : stage2 env params d = none := by simp [stage2, truthyPath, hlp]
  have h3 : stage3 env params = none := by simp [stage3, truthyPath, hlp]
  have hI : pipelineIssues env params d = [] := by
    rw [pipelineIssues, h2, h3]; rfl
  exact ⟨by simpa using h2, by simpa using h3, by simp [hI], by simp [hI, pipelineVerdict]⟩

/-- Witness for C4 at a concrete run with no local path. -/
theorem no_local_path_defaults_witness :
    (analyze_pr envCleanW prNoLocalW).stages_analysis = none ∧
    (analyze_pr envCleanW prNoLocalW).stages_tests = none ∧
    (analyze_pr envCleanW prNoLocalW).issues_found = some 0 ∧
    (analyze_pr envCleanW prNoLocalW).recommendation = some "APPROVE" :=
  no_local_path_defaults envCleanW prNoLocalW diffOkW rfl rfl

/-- C8: when stages 1-4 have completed and publication is requested but
the publish call fails, the returned result still carries the same diff,
analysis, tests, issue list, issue count, rendered body and verdict as
the identical run without publication — only the publish-stage entry
carries the (error) payload. -/
theorem publish_failure_frame (env : Env) (params : AnalyzePRInput) (d : DiffOk)
    (hdiff : env.diffFetch = .ok d) (hpost : params.post_comments = true)
    (hfail : postFailed env.postOutcome = true) :
    (analyze_pr env params).stages_diff =
      (analyze_pr env { params with post_comments := false }).stages_diff ∧
    (analyze_pr env params).stages_analysis =
      (analyze_pr env { params with post_comments := false }).stages_analysis ∧
    (analyze_pr env params).stages_tests =
      (analyze_pr env { params with post_comments := false }).stages_tests ∧
    (analyze_pr env params).issues_found =
      (analyze_pr env { params with post_comments := false }).issues_found ∧
    (analyze_pr env params).issues =
      (analyze_pr env { params with post_comments := false }).issues ∧
    (analyze_pr env params).review_body =
      (analyze_pr env { params with post_comments := false }).review_body ∧
    (analyze_pr env params).recommendation =
      (analyze_pr env { params with post_comments := false }).recommendation ∧
    (analyze_pr env params).stages_posted_review = some (post_payload env.postOutcome) ∧
    (analyze_pr env { params with post_comments := false }).stages_posted_review = none ∧
    payloadIsError (post_payload env.postOutcome) = true := by
  rw [analyze_pr_ok_eq env params d hdiff,
    analyze_pr_ok_eq env { params with post_comments := false } d hdiff]
  refine ⟨rfl, rfl, rfl, rfl, rfl, rfl, rfl, ?_, ?_, ?_⟩
  · simp [hpost, post_review_comment]
  · simp
  · cases hp : env.postOutcome with
    | posted a b c => rw [hp] at hfail; simp [postFailed] at hfail
    | httpError a b => rfl
    | otherError a b => rfl

/-- Witness for C8 at a concrete run whose publish POST fails with 422. -/
theorem publish_failure_frame_witness :
    (analyze_pr envPostFailW prPostW).stages_diff =
      (analyze_pr envPostFailW { prPostW with post_comments := false }).stages_diff ∧
    (analyze_pr envPostFailW prPostW).stages_analysis =
      (analyze_pr envPostFailW { prPostW with post_comments := false }).stages_analysis ∧
    (analyze_pr envPostFailW prPostW).stages_tests =
      (analyze_pr envPostFailW { prPostW with post_comments := false }).stages_tests ∧
    (analyze_pr envPostFailW prPostW).issues_found =
      (analyze_pr envPostFailW { prPostW with post_comments := false }).issues_found ∧
    (analyze_pr envPostFailW prPostW).issues =
      (analyze_pr envPostFailW { prPostW with post_comments := false }).issues ∧
    (analyze_pr envPostFailW prPostW).review_body =
      (analyze_pr envPostFailW { prPostW with post_comments := false }).review_body ∧
    (analyze_pr envPostFailW prPostW).recommendation =
      (analyze_pr envPostFailW { prPostW with post_comments := false }).recommendation ∧
    (analyze_pr envPostFailW prPostW).stages_posted_review =
      some (post_payload envPostFailW.postOutcome) ∧
    (analyze_pr envPostFailW { prPostW with post_comments := false }).stages_posted_review =
      none ∧
    payloadIsError (post_payload envPostFailW.postOutcome) = true :=
  publish_failure_frame envPostFailW prPostW diffOkW rfl rfl rfl

/-- The failed-outcome count of one optional check depends only on its
shape. -/
theorem optOutcome_countP {o o' : Option CommandOutcome} (h : optShapeEqB o o' = true) :
    (optOutcomeList o).countP (fun x => !x.success) =
      (optOutcomeList o').countP (fun x => !x.success) := by
  cases o with
  | none =>
    cases o' with
    | none => rfl
    | some b => simp [optShapeEqB] at h
  | some a =>
    cases o' with
    | none => simp [optShapeEqB] at h
    | some b =>
      have hs : a.success = b.success := by simpa [optShapeEqB] using h
      simp [optOutcomeList, List.countP_cons, hs]

/-- One file's issue-contribution length depends only on its report's
shape. -/
theorem checkIssues_length_shapeEq {f g : FileAnalysis} (h : fileShapeEqB f g = true) :
    (checkIssues f.file f.analysis).length = (checkIssues g.file g.analysis).length := by
  obtain ⟨-, h1, h2, h3⟩ :
      (f.file == g.file) = true ∧ optShapeEqB f.analysis.lint g.analysis.lint = true ∧
        optShapeEqB f.analysis.fmt g.analysis.fmt = true ∧
        optShapeEqB f.analysis.vet g.analysis.vet = true := by
    simpa [fileShapeEqB, Bool.and_eq_true, and_assoc] using h
  rw [checkIssues_length, checkIssues_length, resultOutcomes, resultOutcomes,
    List.countP_append, List.countP_append, List.countP_append, List.countP_append,
    optOutcome_countP h1, optOutcome_countP h2, optOutcome_countP h3]

/-- The analysis-stage issue count depends only on the reports' shape. -/
theorem analysisIssues_length_shapeEq :
    ∀ {l l' : List FileAnalysis}, filesShapeEqB l l' = true →
      (analysisIssues l).length = (analysisIssues l').length
  | [], [], _ => rfl
  | [], _ :: _, h => by simp [filesShapeEqB] at h
  | _ :: _, [], h => by simp [filesShapeEqB] at h
  | f :: fs, g :: gs, h => by
    obtain ⟨h1, h2⟩ : fileShapeEqB f g = true ∧ filesShapeEqB fs gs = true := by
      simpa [filesShapeEqB, Bool.and_eq_true] using h
    have ih := analysisIssues_length_shapeEq h2
    have hx : analysisIssues (f :: fs) = checkIssues f.file f.analysis ++ analysisIssues fs := rfl
    have hy : analysisIssues (g :: gs) = checkIssues g.file g.analysis ++ analysisIssues gs := rfl
    rw [hx, hy, List.length_append, List.length_append, checkIssues_length_shapeEq h1, ih]

/-- The aggregated issue count depends only on the stages' shape. -/
theorem aggregatedIssues_length_shapeEq (a a' : Option (List FileAnalysis))
    (t t' : Option CommandOutcome)
    (ha : analysisShapeEqB a a' = true) (ht : optShapeEqB t t' = true) :
    (aggregatedIssues a t).length = (aggregatedIssues a' t').length := by
  rw [aggregatedIssues.eq_def, aggregatedIssues.eq_def, List.length_append, List.length_append]
  congr 1
  · rcases a with _ | l <;> rcases a' with _ | l'
    · rfl
    · simp [analysisShapeEqB] at ha
    · simp [analysisShapeEqB] at ha
    · exact analysisIssues_length_shapeEq (by simpa [analysisShapeEqB] using ha)
  · rcases t with _ | tc <;> rcases t' with _ | tc'
    · rfl
    · simp [optShapeEqB] at ht
    · simp [optShapeEqB] at ht
    · have hs : tc.success = tc'.success := by simpa [optShapeEqB] using ht
      change (if tc.success = true then ([] : List Issue)
          else [⟨"tests", "test_failure", tc.stderr⟩]).length =
        (if tc'.success = true then ([] : List Issue)
          else [⟨"tests", "test_failure", tc'.stderr⟩]).length
      rw [← hs]
      cases hb : tc.success <;> simp [hb]

set_option maxRecDepth 8192 in
/-- A body that reports issues is never the congratulatory body (they
differ at character position 31). -/
theorem issuesBody_ne_congrats (issues : List Issue) : issuesBody issues ≠ congratsBody :=
  fun h => (ne_append1_of_getElem? _ 31 (by decide) (by decide)) h.symm

/-- The rendered body is the congratulatory body exactly when the issue
list is empty. -/
theorem pipelineBody_congrats_iff (issues : List Issue) :
    pipelineBody issues = congratsBody ↔ issues = [] := by
  cases issues with
  | nil => simp [pipelineBody]
  | cons i is =>
    rw [pipelineBody]
    simp only [List.isEmpty_cons, Bool.not_false, if_true]
    exact iff_of_false (issuesBody_ne_congrats _) (by simp)

/-- C10: two runs whose analysis and test stages agree on file names,
check kinds and success flags (stdout/stderr/exit statuses may differ)
derive the same issue count, the same verdict, and make the same choice
between the issues body and the congratulatory body. -/
theorem shape_determines_verdict (env env' : Env) (p p' : AnalyzePRInput) (d d' : DiffOk)
    (h : env.diffFetch = .ok d) (h' : env'.diffFetch = .ok d')
    (ha : analysisShapeEqB (analyze_pr env p).stages_analysis
      (analyze_pr env' p').stages_analysis = true)
    (ht : optShapeEqB (analyze_pr env p).stages_tests
      (analyze_pr env' p').stages_tests = true) :
    (analyze_pr env p).issues_found = (analyze_pr env' p').issues_found ∧
    (analyze_pr env p).recommendation = (analyze_pr env' p').recommendation ∧
    ((analyze_pr env p).review_body = some congratsBody ↔
      (analyze_pr env' p').review_body = some congratsBody) := by
  rw [analyze_pr_ok_eq env p d h, analyze_pr_ok_eq env' p' d' h'] at ha ht ⊢
  have hlen : (pipelineIssues env p d).length = (pipelineIssues env' p' d').length :=
    aggregatedIssues_length_shapeEq _ _ _ _ ha ht
  refine ⟨congrArg some hlen, ?_, ?_⟩
  · show some (pipelineVerdict (pipelineIssues env p d)) =
      some (pipelineVerdict (pipelineIssues env' p' d'))
    have hemp : (pipelineIssues env p d).isEmpty = (pipelineIssues env' p' d').isEmpty := by
      cases l1 : pipelineIssues env p d <;> cases l2 : pipelineIssues env' p' d' <;>
        rw [l1, l2] at hlen <;> simp_all
    rw [pipelineVerdict, pipelineVerdict, hemp]
  · show (some (pipelineBody (pipelineIssues env p d)) = some congratsBody ↔
      some (pipelineBody (pipelineIssues env' p' d')) = some congratsBody)
    have he : pipelineIssues env p d = [] ↔ pipelineIssues env' p' d' = [] := by
      constructor
      · intro e; rw [e] at hlen
        exact List.length_eq_zero.1 hlen.symm
      · intro e; rw [e] at hlen
        exact List.length_eq_zero.1 hlen
    simp only [Option.some.injEq, pipelineBody_congrats_iff]
    exact he

set_option maxRecDepth 8192 in
/-- Witness for C10: a run whose gofmt reports `main.go` on stdout with
exit 0 against a run whose gofmt output is empty — same shapes, same
count, verdict and body choice. -/
theorem shape_determines_verdict_witness :
    (analyze_pr envFmtDirtyW prLocalW).issues_found =
      (analyze_pr envCleanW prLocalW).issues_found ∧
    (analyze_pr envFmtDirtyW prLocalW).recommendation =
      (analyze_pr envCleanW prLocalW).recommendation ∧
    ((analyze_pr envFmtDirtyW prLocalW).review_body = some congratsBody ↔
      (analyze_pr envCleanW prLocalW).review_body = some congratsBody) :=
  shape_determines_verdict envFmtDirtyW envCleanW prLocalW prLocalW diffOkW diffOkW
    rfl rfl (by decide) (by decide)
